import Mathlib

/-!
Shallow embedding of the core renderer of photonforge-raytracing
(src/src/renderer.rs).  Camera scalars (`f32` in the source) are modelled
as real numbers; `u32` quantities are modelled as naturals with explicit
`% 2 ^ 32` where the source uses wrapping arithmetic.  GPU objects are
modelled by the observable data the host manipulates: textures by their
dimensions, texture views by the texture slot (A or B) they reference plus
their dimensions, bind groups by the views they hold.  The external
surface-acquisition collaborator is modelled by a boolean parameter of
`render` saying whether `get_current_texture` succeeded.
-/

/-- Real-number model of `glam::Vec3`. -/
structure Vec3 where
  x : ℝ
  y : ℝ
  z : ℝ

namespace Vec3

noncomputable def add (a b : Vec3) : Vec3 := ⟨a.x + b.x, a.y + b.y, a.z + b.z⟩

noncomputable def smul (c : ℝ) (v : Vec3) : Vec3 := ⟨c * v.x, c * v.y, c * v.z⟩

noncomputable def neg (v : Vec3) : Vec3 := ⟨-v.x, -v.y, -v.z⟩

/-- `glam` cross product. -/
noncomputable def cross (a b : Vec3) : Vec3 :=
  ⟨a.y * b.z - a.z * b.y, a.z * b.x - a.x * b.z, a.x * b.y - a.y * b.x⟩

noncomputable def length (v : Vec3) : ℝ :=
  Real.sqrt (v.x * v.x + v.y * v.y + v.z * v.z)

/-- `glam` `normalize`: the vector scaled by the reciprocal of its length. -/
noncomputable def normalize (v : Vec3) : Vec3 := smul (1 / v.length) v

def zero : Vec3 := ⟨0, 0, 0⟩

/-- `Vec3::Y`, the world-up vector. -/
def unitY : Vec3 := ⟨0, 1, 0⟩

end Vec3

/-- Column-major 3x3 matrix, as built by `Mat3::from_cols`. -/
structure Mat3 where
  c0 : Vec3
  c1 : Vec3
  c2 : Vec3

/-- `glam` matrix-vector product: linear combination of the columns. -/
noncomputable def Mat3.mulVec (m : Mat3) (v : Vec3) : Vec3 :=
  Vec3.add (Vec3.add (Vec3.smul v.x m.c0) (Vec3.smul v.y m.c1)) (Vec3.smul v.z m.c2)

/-- Rust `f32::clamp(lo, hi)` (for `lo ≤ hi`): below `lo` gives `lo`,
above `hi` gives `hi`, otherwise the value itself. -/
noncomputable def rclamp (v lo hi : ℝ) : ℝ := max lo (min v hi)

/-- Rust `f32::to_radians`: multiply by pi / 180. -/
noncomputable def toRadians (deg : ℝ) : ℝ := deg * (Real.pi / 180)

/-- `winit::dpi::PhysicalSize<u32>`. -/
structure PhysicalSize where
  width : ℕ
  height : ℕ
deriving DecidableEq

/-- The two accumulation texture slots of the ping-pong scheme
(`accum_a` / `accum_b`). -/
inductive Slot where
  | A
  | B
deriving DecidableEq

/-- An accumulation texture, observable by its dimensions.  `make_accum`
creates it with `width.max(1) × height.max(1)` texels. -/
structure AccumTex where
  width : ℕ
  height : ℕ
deriving DecidableEq

/-- A `TextureView` of an accumulation texture: it references one of the
two texture slots and exposes that texture's dimensions. -/
structure TexView where
  slot : Slot
  width : ℕ
  height : ℕ
deriving DecidableEq

/-- A compute-kernel bind group: binding 0 is the shared camera uniform
buffer, binding 1 the read-only storage view, binding 2 the write-only
storage view.  Modelled by the two views. -/
structure ComputeBind where
  inp : TexView
  out : TexView
deriving DecidableEq

/-- A blit bind group: binding 0 is the shared camera uniform buffer,
binding 3 the sampled view, binding 4 the sampler.  Modelled by the
sampled view. -/
structure BlitBind where
  sampled : TexView
deriving DecidableEq

/-- The `CameraUBO` record as a host value (field contents, not bytes). -/
structure CameraUBO where
  origin : Vec3
  dir : Vec3
  right : Vec3
  up : Vec3
  img_size_w : ℕ
  img_size_h : ℕ
  frame_index : ℕ
  max_bounce : ℕ

/-- The width/height part of the `SurfaceConfiguration` (the only part the
resize handler touches; format, present mode etc. are fixed at startup and
modelled as absent). -/
structure SurfaceConfig where
  width : ℕ
  height : ℕ
deriving DecidableEq

/-- `Movement`, the six discrete movement directions. -/
inductive Movement where
  | Forward
  | Backward
  | Left
  | Right
  | Up
  | Down
deriving DecidableEq

/-- The renderer state: every field of `struct Renderer` whose value the
host observes or mutates (device/queue/pipeline/layout/sampler handles are
created once and never change, and are omitted). -/
structure Renderer where
  config : SurfaceConfig
  size : PhysicalSize
  accum_a : AccumTex
  accum_b : AccumTex
  accum_a_view_storage : TexView
  accum_b_view_storage : TexView
  accum_a_view_sample : TexView
  accum_b_view_sample : TexView
  compute_bind_a : ComputeBind
  compute_bind_b : ComputeBind
  blit_bind_a : BlitBind
  blit_bind_b : BlitBind
  camera_buf : CameraUBO
  frame_index : ℕ
  use_a_as_src : Bool
  cam_pos : Vec3
  yaw : ℝ
  pitch : ℝ
  move_delta : Vec3
  fov_y_radians : ℝ

namespace Renderer

/-- `Renderer::make_accum`: create one accumulation texture of size
`width.max(1) × height.max(1)` together with its storage view and its
sample view (both views of the same texture, hence the same slot and
dimensions). -/
def make_accum (slot : Slot) (size : PhysicalSize) : AccumTex × TexView × TexView :=
  let w := max size.width 1
  let h := max size.height 1
  (⟨w, h⟩, ⟨slot, w, h⟩, ⟨slot, w, h⟩)

/-- `Renderer::view_basis`: direction from yaw/pitch, right = dir x Y,
up = right x dir, all normalized; columns (right, up, -dir). -/
noncomputable def view_basis (s : Renderer) : Mat3 :=
  let dir := Vec3.normalize
    ⟨Real.cos s.yaw * Real.cos s.pitch,
     Real.sin s.pitch,
     Real.sin s.yaw * Real.cos s.pitch⟩
  let right := Vec3.normalize (Vec3.cross dir Vec3.unitY)
  let up := Vec3.normalize (Vec3.cross right dir)
  ⟨right, up, Vec3.neg dir⟩

/-- The `CameraUBO` value that `Renderer::update_camera` builds from the
current state (dir = -(basis column 2), right = column 0, up = column 1,
image size from `self.size` with each dimension at least 1, bounce limit
fixed at 2). -/
noncomputable def computeUBO (s : Renderer) : CameraUBO :=
  let basis := s.view_basis
  { origin := s.cam_pos
    dir := Vec3.neg basis.c2
    right := basis.c0
    up := basis.c1
    img_size_w := max s.size.width 1
    img_size_h := max s.size.height 1
    frame_index := s.frame_index
    max_bounce := 2 }

/-- `Renderer::update_camera`: write the freshly built `CameraUBO` into
the camera uniform buffer. -/
noncomputable def update_camera (s : Renderer) : Renderer :=
  { s with camera_buf := s.computeUBO }

/-- `Renderer::reset_accum`: zero the frame counter. -/
def reset_accum (s : Renderer) : Renderer :=
  { s with frame_index := 0 }

/-- `Renderer::queue_movement`: adjust the pending movement delta by the
fixed amount 0.2 on the axis selected by `m`, move the camera origin by
the delta transformed through the view basis, clear the delta, reset
accumulation, rewrite the camera uniform. -/
noncomputable def queue_movement (m : Movement) (s : Renderer) : Renderer :=
  let amt : ℝ := 0.2
  let d : Vec3 :=
    match m with
    | Movement.Forward => { s.move_delta with z := s.move_delta.z - amt }
    | Movement.Backward => { s.move_delta with z := s.move_delta.z + amt }
    | Movement.Left => { s.move_delta with x := s.move_delta.x - amt }
    | Movement.Right => { s.move_delta with x := s.move_delta.x + amt }
    | Movement.Up => { s.move_delta with y := s.move_delta.y + amt }
    | Movement.Down => { s.move_delta with y := s.move_delta.y - amt }
  let s1 := { s with cam_pos := Vec3.add s.cam_pos (s.view_basis.mulVec d),
                     move_delta := Vec3.zero }
  update_camera (reset_accum s1)

/-- `Renderer::on_mouse_delta`: yaw -= dx * 0.0025, pitch -= dy * 0.0025
then clamp pitch to [-1.5, 1.5], reset accumulation, rewrite the camera
uniform. -/
noncomputable def on_mouse_delta (dx dy : ℝ) (s : Renderer) : Renderer :=
  let sensitivity : ℝ := 0.0025
  let s1 := { s with yaw := s.yaw - dx * sensitivity,
                     pitch := rclamp (s.pitch - dy * sensitivity) (-1.5) 1.5 }
  update_camera (reset_accum s1)

/-- `Renderer::on_scroll`: fov -= delta * 0.02 then clamp to
[10 degrees, 90 degrees] in radians, reset accumulation, rewrite the
camera uniform. -/
noncomputable def on_scroll (delta : ℝ) (s : Renderer) : Renderer :=
  let s1 := { s with fov_y_radians :=
                rclamp (s.fov_y_radians - delta * 0.02) (toRadians 10) (toRadians 90) }
  update_camera (reset_accum s1)

/-- `Renderer::resize`: no-op when either dimension is zero; otherwise
store the new size, reconfigure the surface to it, recreate both
accumulation textures and all six views, rebuild all four bind groups
against the new views, reset accumulation and rewrite the camera
uniform. -/
noncomputable def resize (new_size : PhysicalSize) (s : Renderer) : Renderer :=
  if new_size.width = 0 ∨ new_size.height = 0 then s
  else
    let s1 := { s with size := new_size,
                       config := { width := new_size.width, height := new_size.height } }
    let a := make_accum Slot.A new_size
    let b := make_accum Slot.B new_size
    let s2 := { s1 with
      accum_a := a.1
      accum_b := b.1
      accum_a_view_storage := a.2.1
      accum_b_view_storage := b.2.1
      accum_a_view_sample := a.2.2
      accum_b_view_sample := b.2.2
      compute_bind_a := ⟨a.2.1, b.2.1⟩
      compute_bind_b := ⟨b.2.1, a.2.1⟩
      blit_bind_a := ⟨a.2.2⟩
      blit_bind_b := ⟨b.2.2⟩ }
    update_camera (reset_accum s2)

/-- The compute bind group `Renderer::render` dispatches with:
`compute_bind_a` (in = A, out = B) when `use_a_as_src`, else
`compute_bind_b` (in = B, out = A). -/
def computeBindOf (s : Renderer) : ComputeBind :=
  if s.use_a_as_src then s.compute_bind_a else s.compute_bind_b

/-- The blit bind group `Renderer::render` draws with: `blit_bind_b`
(sample = B) when `use_a_as_src` (compute just wrote B), else
`blit_bind_a` (sample = A). -/
def blitBindOf (s : Renderer) : BlitBind :=
  if s.use_a_as_src then s.blit_bind_b else s.blit_bind_a

/-- The GPU work one successful `Renderer::render` call submits: the
compute dispatch (bind group and workgroup grid, 8x8 tiles) and the blit
draw (bind group). -/
structure FrameDispatch where
  computeBind : ComputeBind
  gx : ℕ
  gy : ℕ
  blitBind : BlitBind
deriving DecidableEq

/-- The dispatch record of one `Renderer::render` call from state `s`. -/
def renderDispatch (s : Renderer) : FrameDispatch :=
  ⟨computeBindOf s, (s.size.width + 7) / 8, (s.size.height + 7) / 8, blitBindOf s⟩

/-- The error `Renderer::render` surfaces when surface-image acquisition
fails. -/
inductive RenderError where
  | surfaceAcquireFailed
deriving DecidableEq

/-- `Renderer::render`.  `acquireOk` models the outcome of the external
`surface.get_current_texture()` call.  On failure the recorded (but never
submitted) command encoder is dropped and the error is returned with the
state untouched.  On success the frame's work is submitted and presented,
the frame counter is advanced with wraparound, the orientation flag is
flipped, and the camera uniform is rewritten. -/
noncomputable def render (acquireOk : Bool) (s : Renderer) :
    Renderer × Except RenderError FrameDispatch :=
  if acquireOk then
    (update_camera { s with frame_index := (s.frame_index + 1) % 2 ^ 32,
                            use_a_as_src := !s.use_a_as_src },
     Except.ok (renderDispatch s))
  else
    (s, Except.error RenderError.surfaceAcquireFailed)

/-- `Renderer::new` (the part after GPU-object creation): default camera
at origin (0, 1, 4), yaw 0, pitch 0, zero pending delta, FOV 45 degrees in
radians, frame counter 0, A as source, textures and views from
`make_accum`, bind groups in their canonical orientation, and a final
`update_camera` that initialises the camera uniform buffer. -/
noncomputable def init (size : PhysicalSize) : Renderer :=
  let a := make_accum Slot.A size
  let b := make_accum Slot.B size
  update_camera
    { config := { width := max size.width 1, height := max size.height 1 }
      size := size
      accum_a := a.1
      accum_b := b.1
      accum_a_view_storage := a.2.1
      accum_b_view_storage := b.2.1
      accum_a_view_sample := a.2.2
      accum_b_view_sample := b.2.2
      compute_bind_a := ⟨a.2.1, b.2.1⟩
      compute_bind_b := ⟨b.2.1, a.2.1⟩
      blit_bind_a := ⟨a.2.2⟩
      blit_bind_b := ⟨b.2.2⟩
      camera_buf := ⟨Vec3.zero, Vec3.zero, Vec3.zero, Vec3.zero, 0, 0, 0, 0⟩
      frame_index := 0
      use_a_as_src := true
      cam_pos := ⟨0, 1, 4⟩
      yaw := 0
      pitch := 0
      move_delta := Vec3.zero
      fov_y_radians := toRadians 45 }

/-- `N` consecutive successful `render` calls. -/
noncomputable def renderN : ℕ → Renderer → Renderer
  | 0, s => s
  | n + 1, s => renderN n (render true s).1

/-- A sequence of `on_mouse_delta` calls with the given (dx, dy) pairs. -/
noncomputable def lookSeq (l : List (ℝ × ℝ)) (s : Renderer) : Renderer :=
  l.foldl (fun acc p => on_mouse_delta p.1 p.2 acc) s

/-- A sequence of `on_scroll` calls with the given deltas. -/
noncomputable def scrollSeq (l : List ℝ) (s : Renderer) : Renderer :=
  l.foldl (fun acc d => on_scroll d acc) s

/-- The bind groups hold the views the constructor and the resize handler
install: `compute_bind_a` reads A and writes B, `compute_bind_b` reads B
and writes A, `blit_bind_a` samples A, `blit_bind_b` samples B. -/
def WF (s : Renderer) : Prop :=
  s.compute_bind_a.inp.slot = Slot.A ∧ s.compute_bind_a.out.slot = Slot.B ∧
  s.compute_bind_b.inp.slot = Slot.B ∧ s.compute_bind_b.out.slot = Slot.A ∧
  s.blit_bind_a.sampled.slot = Slot.A ∧ s.blit_bind_b.sampled.slot = Slot.B

/-- States the renderer can actually be in: the initial state and anything
produced from a reachable state by the host-facing operations. -/
inductive Reachable : Renderer → Prop
  | init (size : PhysicalSize) : Reachable (init size)
  | move (m : Movement) (s : Renderer) : Reachable s → Reachable (queue_movement m s)
  | look (dx dy : ℝ) (s : Renderer) : Reachable s → Reachable (on_mouse_delta dx dy s)
  | scroll (d : ℝ) (s : Renderer) : Reachable s → Reachable (on_scroll d s)
  | resize (sz : PhysicalSize) (s : Renderer) : Reachable s → Reachable (resize sz s)
  | render (ok : Bool) (s : Renderer) : Reachable s → Reachable (render ok s).1

end Renderer

/-!
Byte layout of `CameraUBO` under `#[repr(C)]`.  Every field of the Rust
struct has alignment 4 (`[f32; 3]`, `f32`, `[u32; 2]`, `u32`), so the
struct has alignment 4 and the `repr(C)` offset of each field is the plain
sum of the sizes of the fields before it, with no implicit padding; the
total size is the sum of all field sizes.
-/

/-- The fields of `CameraUBO`, in declaration order. -/
inductive UBOField where
  | origin
  | pad0
  | dir
  | pad1
  | right
  | pad2
  | up
  | pad3
  | img_size
  | frame_index
  | max_bounce
deriving DecidableEq

/-- Size in bytes of each `CameraUBO` field: `[f32; 3]` is 12 bytes,
`f32` is 4, `[u32; 2]` is 8, `u32` is 4. -/
def UBOField.byteSize : UBOField → ℕ
  | origin => 12
  | pad0 => 4
  | dir => 12
  | pad1 => 4
  | right => 12
  | pad2 => 4
  | up => 12
  | pad3 => 4
  | img_size => 8
  | frame_index => 4
  | max_bounce => 4

/-- The declaration order of the `CameraUBO` fields. -/
def uboFieldOrder : List UBOField :=
  [UBOField.origin, UBOField.pad0, UBOField.dir, UBOField.pad1,
   UBOField.right, UBOField.pad2, UBOField.up, UBOField.pad3,
   UBOField.img_size, UBOField.frame_index, UBOField.max_bounce]

/-- `repr(C)` byte offset of a field: the sum of the sizes of the fields
declared before it (all alignments are 4 and every running sum is a
multiple of 4, so no implicit padding is inserted). -/
def UBOField.offset (f : UBOField) : ℕ :=
  ((uboFieldOrder.takeWhile (fun g => g ≠ f)).map UBOField.byteSize).sum

/-- Total size of `CameraUBO` in bytes. -/
def uboTotalSize : ℕ := (uboFieldOrder.map UBOField.byteSize).sum

/-- The ping-pong discipline of one `Renderer::render` call from state
`s`: the call succeeds (given successful acquisition), the blit samples
exactly the slot the compute dispatch writes, and the concrete selection
per orientation flag: flag set means read A / write B / sample B, flag
clear means read B / write A / sample A. -/
def pingPongSpec (s : Renderer) : Prop :=
  (Renderer.render true s).2 = Except.ok (Renderer.renderDispatch s) ∧
  (Renderer.renderDispatch s).blitBind.sampled.slot =
    (Renderer.renderDispatch s).computeBind.out.slot ∧
  (s.use_a_as_src = true →
    (Renderer.renderDispatch s).computeBind.inp.slot = Slot.A ∧
    (Renderer.renderDispatch s).computeBind.out.slot = Slot.B ∧
    (Renderer.renderDispatch s).blitBind.sampled.slot = Slot.B) ∧
  (s.use_a_as_src = false →
    (Renderer.renderDispatch s).computeBind.inp.slot = Slot.B ∧
    (Renderer.renderDispatch s).computeBind.out.slot = Slot.A ∧
    (Renderer.renderDispatch s).blitBind.sampled.slot = Slot.A)

/-- What a successful non-degenerate resize to `W × H` leaves behind:
frame counter zero, both accumulation textures at `W × H`, all four bind
groups rebuilt against the new views, and the camera uniform buffer
rewritten from the final state. -/
def resizedSpec (t : Renderer) (W H : ℕ) : Prop :=
  t.frame_index = 0 ∧
  t.accum_a = ⟨W, H⟩ ∧ t.accum_b = ⟨W, H⟩ ∧
  t.compute_bind_a = ⟨⟨Slot.A, W, H⟩, ⟨Slot.B, W, H⟩⟩ ∧
  t.compute_bind_b = ⟨⟨Slot.B, W, H⟩, ⟨Slot.A, W, H⟩⟩ ∧
  t.blit_bind_a = ⟨⟨Slot.A, W, H⟩⟩ ∧
  t.blit_bind_b = ⟨⟨Slot.B, W, H⟩⟩ ∧
  t.camera_buf = t.computeUBO

namespace Renderer

@[simp] theorem update_camera_frame_index (s : Renderer) :
    (update_camera s).frame_index = s.frame_index := rfl

@[simp] theorem update_camera_use_a_as_src (s : Renderer) :
    (update_camera s).use_a_as_src = s.use_a_as_src := rfl

@[simp] theorem update_camera_pitch (s : Renderer) :
    (update_camera s).pitch = s.pitch := rfl

@[simp] theorem update_camera_fov (s : Renderer) :
    (update_camera s).fov_y_radians = s.fov_y_radians := rfl

@[simp] theorem reset_accum_frame_index (s : Renderer) :
    (reset_accum s).frame_index = 0 := rfl

theorem render_true_fst (s : Renderer) :
    (render true s).1 =
      update_camera { s with frame_index := (s.frame_index + 1) % 2 ^ 32,
                             use_a_as_src := !s.use_a_as_src } := rfl

theorem render_true_frame_index (s : Renderer) :
    (render true s).1.frame_index = (s.frame_index + 1) % 2 ^ 32 := rfl

theorem render_true_use_a_as_src (s : Renderer) :
    (render true s).1.use_a_as_src = !s.use_a_as_src := rfl

theorem renderN_frame_index (N : ℕ) (s : Renderer) (h : s.frame_index < 2 ^ 32) :
    (renderN N s).frame_index = (s.frame_index + N) % 2 ^ 32 := by
  induction N generalizing s with
  | zero =>
    simp only [renderN, Nat.add_zero]
    omega
  | succ n ih =>
    have h1 : ((render true s).1).frame_index < 2 ^ 32 := by
      rw [render_true_frame_index]
      exact Nat.mod_lt _ (by norm_num)
    have h2 := ih ((render true s).1) h1
    rw [renderN, h2, render_true_frame_index, Nat.mod_add_mod]
    ring_nf

theorem renderN_use_a_as_src (N : ℕ) (s : Renderer) :
    (renderN N s).use_a_as_src = Bool.xor s.use_a_as_src (decide (N % 2 = 1)) := by
  induction N generalizing s with
  | zero => simp [renderN]
  | succ n ih =>
    rw [renderN, ih, render_true_use_a_as_src]
    rcases Nat.mod_two_eq_zero_or_one n with h | h
    · have h2 : (n + 1) % 2 = 1 := by omega
      simp [h, h2]
    · have h2 : (n + 1) % 2 = 0 := by omega
      simp [h, h2]

end Renderer

/-- C9: the `CameraUBO` record mirrored to the GPU is exactly 80 bytes,
with origin at [0,12), padding [12,16), dir [16,28), padding [28,32),
right [32,44), padding [44,48), up [48,60), padding [60,64), the two
32-bit image dimensions at [64,72), frame_index at [72,76), max_bounce at
[76,80), and every 3-vector field starting on a 16-byte boundary. -/
theorem c9_camera_ubo_wire_layout :
    UBOField.offset UBOField.origin = 0 ∧ UBOField.byteSize UBOField.origin = 12 ∧
    UBOField.offset UBOField.pad0 = 12 ∧ UBOField.byteSize UBOField.pad0 = 4 ∧
    UBOField.offset UBOField.dir = 16 ∧ UBOField.byteSize UBOField.dir = 12 ∧
    UBOField.offset UBOField.pad1 = 28 ∧ UBOField.byteSize UBOField.pad1 = 4 ∧
    UBOField.offset UBOField.right = 32 ∧ UBOField.byteSize UBOField.right = 12 ∧
    UBOField.offset UBOField.pad2 = 44 ∧ UBOField.byteSize UBOField.pad2 = 4 ∧
    UBOField.offset UBOField.up = 48 ∧ UBOField.byteSize UBOField.up = 12 ∧
    UBOField.offset UBOField.pad3 = 60 ∧ UBOField.byteSize UBOField.pad3 = 4 ∧
    UBOField.offset UBOField.img_size = 64 ∧ UBOField.byteSize UBOField.img_size = 8 ∧
    UBOField.offset UBOField.frame_index = 72 ∧
    UBOField.byteSize UBOField.frame_index = 4 ∧
    UBOField.offset UBOField.max_bounce = 76 ∧
    UBOField.byteSize UBOField.max_bounce = 4 ∧
    uboTotalSize = 80 ∧
    UBOField.offset UBOField.origin % 16 = 0 ∧
    UBOField.offset UBOField.dir % 16 = 0 ∧
    UBOField.offset UBOField.right % 16 = 0 ∧
    UBOField.offset UBOField.up % 16 = 0 := by
  decide

/-- C4: each of `queue_movement`, `on_mouse_delta` and `on_scroll` leaves
the frame counter at exactly 0, from every starting state and for every
input argument. -/
theorem c4_camera_mutators_zero_frame_counter (s : Renderer) (m : Movement)
    (dx dy d : ℝ) :
    (Renderer.queue_movement m s).frame_index = 0 ∧
    (Renderer.on_mouse_delta dx dy s).frame_index = 0 ∧
    (Renderer.on_scroll d s).frame_index = 0 := by
  refine ⟨?_, rfl, rfl⟩
  cases m <;> rfl

/-- C5: `resize` with a zero width or a zero height is a no-op: the whole
renderer state — frame resources, views, bind groups, frame counter,
stored size, surface configuration and all camera fields — is returned
unchanged. -/
theorem c5_resize_zero_is_noop (s : Renderer) (W H : ℕ) (h : W = 0 ∨ H = 0) :
    Renderer.resize ⟨W, H⟩ s = s := by
  unfold Renderer.resize
  rcases h with h | h <;> simp [h]

/-- Witness for C5 at a concrete state and size. -/
theorem c5_resize_zero_is_noop_witness :
    ((0 : ℕ) = 0 ∨ (600 : ℕ) = 0) ∧
    Renderer.resize ⟨0, 600⟩ (Renderer.init ⟨800, 600⟩) = Renderer.init ⟨800, 600⟩ :=
  ⟨Or.inl rfl, c5_resize_zero_is_noop (Renderer.init ⟨800, 600⟩) 0 600 (Or.inl rfl)⟩

/-- C10: when surface-image acquisition fails, `render` returns the
acquisition error and the renderer state is returned unchanged — the frame
counter is not advanced, the orientation flag is not flipped, and no
camera field is modified. -/
theorem c10_render_acquire_failure_leaves_state (s : Renderer) :
    Renderer.render false s =
      (s, Except.error Renderer.RenderError.surfaceAcquireFailed) := rfl

/-- C3: after `N` consecutive successful `render` calls with no
intervening camera mutation, starting from frame counter 0, the frame
counter is `N mod 2^32` and the orientation flag is its initial value
XOR the parity of `N`. -/
theorem c3_renderN_counter_and_flag (N : ℕ) (s : Renderer)
    (h : s.frame_index = 0) :
    (Renderer.renderN N s).frame_index = N % 2 ^ 32 ∧
    (Renderer.renderN N s).use_a_as_src =
      Bool.xor s.use_a_as_src (decide (N % 2 = 1)) := by
  constructor
  · rw [Renderer.renderN_frame_index N s (by rw [h]; norm_num), h, Nat.zero_add]
  · exact Renderer.renderN_use_a_as_src N s

/-- Witness for C3: five frames from the freshly initialised renderer. -/
theorem c3_renderN_counter_and_flag_witness :
    (Renderer.init ⟨100, 100⟩).frame_index = 0 ∧
    (Renderer.renderN 5 (Renderer.init ⟨100, 100⟩)).frame_index = 5 % 2 ^ 32 ∧
    (Renderer.renderN 5 (Renderer.init ⟨100, 100⟩)).use_a_as_src =
      Bool.xor (Renderer.init ⟨100, 100⟩).use_a_as_src (decide (5 % 2 = 1)) :=
  ⟨rfl,
   (c3_renderN_counter_and_flag 5 (Renderer.init ⟨100, 100⟩) rfl).1,
   (c3_renderN_counter_and_flag 5 (Renderer.init ⟨100, 100⟩) rfl).2⟩

namespace Renderer

theorem wf_init (sz : PhysicalSize) : WF (init sz) :=
  ⟨rfl, rfl, rfl, rfl, rfl, rfl⟩

theorem wf_update_camera (s : Renderer) (h : WF s) : WF (update_camera s) := h

theorem wf_reset_accum (s : Renderer) (h : WF s) : WF (reset_accum s) := h

theorem wf_queue_movement (m : Movement) (s : Renderer) (h : WF s) :
    WF (queue_movement m s) := h

theorem wf_on_mouse_delta (dx dy : ℝ) (s : Renderer) (h : WF s) :
    WF (on_mouse_delta dx dy s) := h

theorem wf_on_scroll (d : ℝ) (s : Renderer) (h : WF s) :
    WF (on_scroll d s) := h

theorem wf_resize (sz : PhysicalSize) (s : Renderer) (h : WF s) :
    WF (resize sz s) := by
  unfold resize
  split
  · exact h
  · exact ⟨rfl, rfl, rfl, rfl, rfl, rfl⟩

theorem wf_render (ok : Bool) (s : Renderer) (h : WF s) :
    WF (render ok s).1 := by
  unfold render
  cases ok
  · exact h
  · exact h

/-- Every reachable renderer state has its bind groups in the canonical
ping-pong orientation. -/
theorem reachable_wf (s : Renderer) (h : Reachable s) : WF s := by
  induction h with
  | init sz => exact wf_init sz
  | move m s _ ih => exact wf_queue_movement m s ih
  | look dx dy s _ ih => exact wf_on_mouse_delta dx dy s ih
  | scroll d s _ ih => exact wf_on_scroll d s ih
  | resize sz s _ ih => exact wf_resize sz s ih
  | render ok s _ ih => exact wf_render ok s ih

end Renderer

/-- C2: in every (reachable-state) call to `render`, the blit pass samples
exactly the accumulation image the compute pass of the same frame wrote,
the opposite of the one it read: with `use_a_as_src` set the compute
dispatch reads A and writes B and the blit samples B, with it clear the
compute dispatch reads B and writes A and the blit samples A. -/
theorem c2_blit_samples_freshly_written_image (s : Renderer)
    (h : Renderer.Reachable s) : pingPongSpec s := by
  obtain ⟨h1, h2, h3, h4, h5, h6⟩ := Renderer.reachable_wf s h
  refine ⟨rfl, ?_, ?_, ?_⟩ <;>
    cases hb : s.use_a_as_src <;>
      simp [Renderer.renderDispatch, Renderer.computeBindOf, Renderer.blitBindOf,
            hb, h1, h2, h3, h4, h5, h6]

/-- Witness for C2 at the freshly initialised renderer. -/
theorem c2_blit_samples_freshly_written_image_witness :
    Renderer.Reachable (Renderer.init ⟨640, 480⟩) ∧
    pingPongSpec (Renderer.init ⟨640, 480⟩) :=
  ⟨Renderer.Reachable.init ⟨640, 480⟩,
   c2_blit_samples_freshly_written_image (Renderer.init ⟨640, 480⟩)
     (Renderer.Reachable.init ⟨640, 480⟩)⟩

/-- C6: a resize to nonzero dimensions that differ from the current size
zeroes the frame counter, leaves both accumulation images at exactly the
new dimensions, rebuilds all four bind groups against the new views, and
rewrites the camera uniform from the final state before returning. -/
theorem c6_resize_rebuilds_resources (s : Renderer) (W H : ℕ)
    (hW : W ≠ 0) (hH : H ≠ 0)
    (_hdiff : W ≠ s.size.width ∨ H ≠ s.size.height) :
    resizedSpec (Renderer.resize ⟨W, H⟩ s) W H := by
  have eW : max W 1 = W := Nat.max_eq_left (Nat.one_le_iff_ne_zero.2 hW)
  have eH : max H 1 = H := Nat.max_eq_left (Nat.one_le_iff_ne_zero.2 hH)
  unfold Renderer.resize
  rw [if_neg (by simp [hW, hH])]
  refine ⟨rfl, ?_, ?_, ?_, ?_, ?_, ?_, rfl⟩ <;>
    simp [Renderer.make_accum, Renderer.update_camera, Renderer.reset_accum, eW, eH]

/-- Witness for C6: resize the 800x600 renderer to 320x200. -/
theorem c6_resize_rebuilds_resources_witness :
    (320 : ℕ) ≠ 0 ∧ (200 : ℕ) ≠ 0 ∧
    ((320 : ℕ) ≠ (Renderer.init ⟨800, 600⟩).size.width ∨
      (200 : ℕ) ≠ (Renderer.init ⟨800, 600⟩).size.height) ∧
    resizedSpec (Renderer.resize ⟨320, 200⟩ (Renderer.init ⟨800, 600⟩)) 320 200 :=
  ⟨by decide, by decide, Or.inl (by decide),
   c6_resize_rebuilds_resources (Renderer.init ⟨800, 600⟩) 320 200
     (by decide) (by decide) (Or.inl (by decide))⟩

namespace Renderer

/-- After one `on_mouse_delta` call the pitch is inside the clamp range,
whatever the starting state and the deltas. -/
theorem pitch_after_look (s : Renderer) (dx dy : ℝ) :
    -1.5 ≤ (on_mouse_delta dx dy s).pitch ∧ (on_mouse_delta dx dy s).pitch ≤ 1.5 := by
  have hp : (on_mouse_delta dx dy s).pitch =
      rclamp (s.pitch - dy * 0.0025) (-1.5) 1.5 := rfl
  rw [hp]
  unfold rclamp
  constructor
  · exact le_max_left _ _
  · exact max_le (by norm_num) (min_le_right _ _)

/-- The pitch-clamp invariant survives any sequence of `on_mouse_delta`
calls. -/
theorem lookSeq_pitch (l : List (ℝ × ℝ)) :
    ∀ s : Renderer, -1.5 ≤ s.pitch → s.pitch ≤ 1.5 →
      -1.5 ≤ (lookSeq l s).pitch ∧ (lookSeq l s).pitch ≤ 1.5 := by
  induction l with
  | nil => exact fun s h1 h2 => ⟨h1, h2⟩
  | cons p t ih =>
    intro s _ _
    have h := pitch_after_look s p.1 p.2
    exact ih (on_mouse_delta p.1 p.2 s) h.1 h.2

/-- The FOV bounds are ordered: 10 degrees is at most 90 degrees in
radians. -/
theorem toRadians_ten_le_ninety : toRadians 10 ≤ toRadians 90 := by
  unfold toRadians
  have hpi : (0 : ℝ) ≤ Real.pi / 180 := by positivity
  nlinarith

/-- After one `on_scroll` call the FOV is inside the clamp range,
whatever the starting state and the delta. -/
theorem fov_after_scroll (s : Renderer) (d : ℝ) :
    toRadians 10 ≤ (on_scroll d s).fov_y_radians ∧
    (on_scroll d s).fov_y_radians ≤ toRadians 90 := by
  have hf : (on_scroll d s).fov_y_radians =
      rclamp (s.fov_y_radians - d * 0.02) (toRadians 10) (toRadians 90) := rfl
  rw [hf]
  unfold rclamp
  constructor
  · exact le_max_left _ _
  · exact max_le toRadians_ten_le_ninety (min_le_right _ _)

/-- The FOV-clamp invariant survives any sequence of `on_scroll` calls. -/
theorem scrollSeq_fov (l : List ℝ) :
    ∀ s : Renderer, toRadians 10 ≤ s.fov_y_radians →
      s.fov_y_radians ≤ toRadians 90 →
      toRadians 10 ≤ (scrollSeq l s).fov_y_radians ∧
      (scrollSeq l s).fov_y_radians ≤ toRadians 90 := by
  induction l with
  | nil => exact fun s h1 h2 => ⟨h1, h2⟩
  | cons d t ih =>
    intro s _ _
    have h := fov_after_scroll s d
    exact ih (on_scroll d s) h.1 h.2

end Renderer

/-- C7: from any state whose pitch is in [-1.5, 1.5], one `on_mouse_delta`
call leaves the pitch in [-1.5, 1.5], and so does any finite sequence of
`on_mouse_delta` calls with arbitrary deltas. -/
theorem c7_pitch_clamp_invariant (s : Renderer) (dx dy : ℝ)
    (l : List (ℝ × ℝ)) (h : -1.5 ≤ s.pitch ∧ s.pitch ≤ 1.5) :
    (-1.5 ≤ (Renderer.on_mouse_delta dx dy s).pitch ∧
      (Renderer.on_mouse_delta dx dy s).pitch ≤ 1.5) ∧
    (-1.5 ≤ (Renderer.lookSeq l s).pitch ∧ (Renderer.lookSeq l s).pitch ≤ 1.5) :=
  ⟨Renderer.pitch_after_look s dx dy, Renderer.lookSeq_pitch l s h.1 h.2⟩

/-- Witness for C7: two extreme drags from the initial state. -/
theorem c7_pitch_clamp_invariant_witness :
    (-1.5 ≤ (Renderer.init ⟨800, 600⟩).pitch ∧
      (Renderer.init ⟨800, 600⟩).pitch ≤ 1.5) ∧
    ((-1.5 ≤ (Renderer.on_mouse_delta 1000000 (-2000000)
        (Renderer.init ⟨800, 600⟩)).pitch ∧
      (Renderer.on_mouse_delta 1000000 (-2000000)
        (Renderer.init ⟨800, 600⟩)).pitch ≤ 1.5) ∧
     (-1.5 ≤ (Renderer.lookSeq [(1000000, 1000000), (-1000000, -1000000)]
        (Renderer.init ⟨800, 600⟩)).pitch ∧
      (Renderer.lookSeq [(1000000, 1000000), (-1000000, -1000000)]
        (Renderer.init ⟨800, 600⟩)).pitch ≤ 1.5)) :=
  ⟨⟨by norm_num [show (Renderer.init ⟨800, 600⟩).pitch = 0 from rfl],
    by norm_num [show (Renderer.init ⟨800, 600⟩).pitch = 0 from rfl]⟩,
   c7_pitch_clamp_invariant (Renderer.init ⟨800, 600⟩) 1000000 (-2000000)
     [(1000000, 1000000), (-1000000, -1000000)]
     ⟨by norm_num [show (Renderer.init ⟨800, 600⟩).pitch = 0 from rfl],
      by norm_num [show (Renderer.init ⟨800, 600⟩).pitch = 0 from rfl]⟩⟩

/-- C8: from any state whose FOV is in [10°, 90°] (in radians), one
`on_scroll` call leaves the FOV in [10°, 90°], and so does any finite
sequence of `on_scroll` calls with arbitrary deltas. -/
theorem c8_fov_clamp_invariant (s : Renderer) (d : ℝ) (l : List ℝ)
    (h : toRadians 10 ≤ s.fov_y_radians ∧ s.fov_y_radians ≤ toRadians 90) :
    (toRadians 10 ≤ (Renderer.on_scroll d s).fov_y_radians ∧
      (Renderer.on_scroll d s).fov_y_radians ≤ toRadians 90) ∧
    (toRadians 10 ≤ (Renderer.scrollSeq l s).fov_y_radians ∧
      (Renderer.scrollSeq l s).fov_y_radians ≤ toRadians 90) :=
  ⟨Renderer.fov_after_scroll s d, Renderer.scrollSeq_fov l s h.1 h.2⟩

/-- Witness for C8: extreme zooms from the initial 45-degree FOV. -/
theorem c8_fov_clamp_invariant_witness :
    (toRadians 10 ≤ (Renderer.init ⟨800, 600⟩).fov_y_radians ∧
      (Renderer.init ⟨800, 600⟩).fov_y_radians ≤ toRadians 90) ∧
    ((toRadians 10 ≤ (Renderer.on_scroll 100000
        (Renderer.init ⟨800, 600⟩)).fov_y_radians ∧
      (Renderer.on_scroll 100000
        (Renderer.init ⟨800, 600⟩)).fov_y_radians ≤ toRadians 90) ∧
     (toRadians 10 ≤ (Renderer.scrollSeq [100000, -100000]
        (Renderer.init ⟨800, 600⟩)).fov_y_radians ∧
      (Renderer.scrollSeq [100000, -100000]
        (Renderer.init ⟨800, 600⟩)).fov_y_radians ≤ toRadians 90)) := by
  have h0 : (Renderer.init ⟨800, 600⟩).fov_y_radians = toRadians 45 := rfl
  have hpi : (0 : ℝ) ≤ Real.pi / 180 := by positivity
  have h1 : toRadians 10 ≤ (Renderer.init ⟨800, 600⟩).fov_y_radians := by
    rw [h0]; unfold toRadians; nlinarith
  have h2 : (Renderer.init ⟨800, 600⟩).fov_y_radians ≤ toRadians 90 := by
    rw [h0]; unfold toRadians; nlinarith
  exact ⟨⟨h1, h2⟩,
    c8_fov_clamp_invariant (Renderer.init ⟨800, 600⟩) 100000 [100000, -100000]
      ⟨h1, h2⟩⟩

namespace Renderer

/-- At yaw 0 and pitch 0 the view basis is right = (0,0,1), up = (0,1,0),
third column = -dir = (-1,0,0): the camera looks along the +x world
axis. -/
theorem view_basis_at_zero (s : Renderer) (hy : s.yaw = 0) (hp : s.pitch = 0) :
    s.view_basis = ⟨⟨0, 0, 1⟩, ⟨0, 1, 0⟩, ⟨-1, 0, 0⟩⟩ := by
  unfold view_basis
  rw [hy, hp]
  simp only [Real.cos_zero, Real.sin_zero]
  norm_num [Vec3.normalize, Vec3.length, Vec3.smul, Vec3.cross, Vec3.unitY,
    Vec3.neg, Real.sqrt_one]

/-- The exact camera position after one Forward movement from the default
camera: the origin moves by +0.2 along the x axis. -/
theorem queue_forward_init_cam_pos :
    (queue_movement Movement.Forward (init ⟨800, 600⟩)).cam_pos =
      ⟨0.2, 1, 4⟩ := by
  have h1 : (queue_movement Movement.Forward (init ⟨800, 600⟩)).cam_pos =
      Vec3.add ⟨0, 1, 4⟩
        (Mat3.mulVec (init ⟨800, 600⟩).view_basis ⟨0, 0, 0 - 0.2⟩) := rfl
  rw [h1, view_basis_at_zero (init ⟨800, 600⟩) rfl rfl]
  norm_num [Mat3.mulVec, Vec3.smul, Vec3.add]

end Renderer

/-- C1 counterexample: from the default camera (origin (0,1,4), yaw 0,
pitch 0, FOV 45°), one `queue_movement(Forward)` call with amount 0.2
leaves origin.z exactly unchanged at 4 — it does not decrease it by
approximately 0.2 (the new origin.z is not 4 - 0.2). -/
theorem c1_forward_does_not_decrease_z :
    (Renderer.queue_movement Movement.Forward (Renderer.init ⟨800, 600⟩)).cam_pos.z =
      (Renderer.init ⟨800, 600⟩).cam_pos.z ∧
    (Renderer.queue_movement Movement.Forward (Renderer.init ⟨800, 600⟩)).cam_pos.z ≠
      (Renderer.init ⟨800, 600⟩).cam_pos.z - 0.2 := by
  have h := Renderer.queue_forward_init_cam_pos
  have hz0 : (Renderer.init ⟨800, 600⟩).cam_pos.z = 4 := rfl
  constructor
  · rw [h, hz0]
  · rw [h, hz0]
    norm_num

/-- C1 (amended): from the default camera (origin (0,1,4), yaw 0, pitch 0,
FOV 45°), a single `queue_movement(Forward)` call with amount 0.2
increases origin.x by exactly 0.2 (the camera looks along +x at yaw 0),
leaves origin.y and origin.z unchanged, and sets the frame counter to
0. -/
theorem c1_forward_moves_along_x :
    (Renderer.queue_movement Movement.Forward (Renderer.init ⟨800, 600⟩)).cam_pos.x =
      (Renderer.init ⟨800, 600⟩).cam_pos.x + 0.2 ∧
    (Renderer.queue_movement Movement.Forward (Renderer.init ⟨800, 600⟩)).cam_pos.y =
      (Renderer.init ⟨800, 600⟩).cam_pos.y ∧
    (Renderer.queue_movement Movement.Forward (Renderer.init ⟨800, 600⟩)).cam_pos.z =
      (Renderer.init ⟨800, 600⟩).cam_pos.z ∧
    (Renderer.queue_movement Movement.Forward (Renderer.init ⟨800, 600⟩)).frame_index
      = 0 := by
  have h := Renderer.queue_forward_init_cam_pos
  have hx0 : (Renderer.init ⟨800, 600⟩).cam_pos.x = 0 := rfl
  have hy0 : (Renderer.init ⟨800, 600⟩).cam_pos.y = 1 := rfl
  have hz0 : (Renderer.init ⟨800, 600⟩).cam_pos.z = 4 := rfl
  refine ⟨?_, ?_, ?_, rfl⟩
  · rw [h, hx0]; norm_num
  · rw [h, hy0]
  · rw [h, hz0]
